import Mathlib

/-!
Verification of the smart-run recommendation engine
(`internal/engine`: `engine.go`, `practical.go`, `smart.go`).

Shallow embedding conventions:
* Timestamps (`time.Time`) are modelled as minutes since a fixed epoch that
  falls on a Monday at 00:00, as integers (`Int`).  `time.Time` comparison
  operators (`Equal`/`Before`/`After`) become integer comparisons, and
  time-of-day / weekday extraction become arithmetic on the minute count.
  All times live in one fixed location (the engine never mixes locations;
  `.Local()` conversions are the identity here).
* `float64` quantities (prices, kWh, costs, scores) are modelled as `ℚ`.
  Arithmetic expressions are carried over verbatim; float rounding error is
  not modelled.  Division by zero in `ℚ` yields `0` where Go would yield
  `Inf`/`NaN`; the affected corner cases are noted at the definitions.
* `map[string][]PriceSlot` keyed by `Format("2006-01-02")` date strings is
  modelled as a function keyed by the day index `t / 1440` (the date string
  and the day index are in bijection, and the code only performs lookups,
  never iterates over the map).
* Fallible functions return `Except`; `time.Parse` failure becomes `Option`.
* Go field/function names are kept except where Lean reserves the word:
  `End` becomes `stop`, `Class` becomes `appClass`.
-/

namespace SmartRun

/-- Day index of a timestamp: models grouping by `Format("2006-01-02")`.
Floor division so that negative timestamps also land on the correct day. -/
def dateKey (t : Int) : Int := t.fdiv 1440

/-- Midnight at the start of the timestamp's day: models
`time.Date(t.Year(), t.Month(), t.Day(), 0, 0, ...)`. -/
def dayStart (t : Int) : Int := t.fdiv 1440 * 1440

/-- ISO weekday (1 = Monday .. 7 = Sunday) of a timestamp.  Models the Go
fragment `weekday := int(t.Weekday()); if weekday == 0 { weekday = 7 }`
(epoch is a Monday, so day index mod 7 is 0 for Monday). -/
def weekdayOf (t : Int) : Int := (t.fdiv 1440).emod 7 + 1

/-- Numeric value of an ASCII digit. -/
def digitVal (c : Char) : Nat := c.toNat - '0'.toNat

/-- Models `time.Parse("15:04", s)`, returning minutes after midnight.
Go's reference layout accepts one or two digits for the hour `15`, then a
literal colon, then exactly two digits for the zero-padded minute `04`,
requires the whole input consumed, and range-checks hour < 24, minute < 60.
Failure is `none` (the caller treats a parse error as a non-match). -/
def parseTimeOfDay (s : String) : Option Nat :=
  match s.toList with
  | [] => none
  | c1 :: rest =>
    if c1.isDigit then
      let hr : Nat × List Char :=
        match rest with
        | c2 :: rest2 => if c2.isDigit then (10 * digitVal c1 + digitVal c2, rest2)
                         else (digitVal c1, c2 :: rest2)
        | [] => (digitVal c1, [])
      match hr.2 with
      | c :: m1 :: m2 :: [] =>
        if c = ':' && m1.isDigit && m2.isDigit then
          let minute := 10 * digitVal m1 + digitVal m2
          if hr.1 < 24 && minute < 60 then some (hr.1 * 60 + minute) else none
        else none
      | _ => none
    else none

/-- `PriceSlot` from `types.go` (`End` renamed to `stop`). -/
structure PriceSlot where
  start : Int
  stop : Int
  pencePerKWh : ℚ
  includesVAT : Bool
deriving DecidableEq, Repr, Inhabited

/-- `TimeWindow` from `types.go`: `HH:mm` strings and an optional
day-of-week list (1 = Monday .. 7 = Sunday; empty = all days). -/
structure TimeWindow where
  start : String
  stop : String
  daysOfWeek : List Int
deriving DecidableEq, Repr, Inhabited

/-- `Constraints` from `types.go`. -/
structure Constraints where
  allowed : List TimeWindow
  blocked : List TimeWindow
  quietHours : List TimeWindow
  finishBy : Option Int
  startBy : Option Int
  priceCapPence : Option ℚ
  noiseLevel : Int
deriving DecidableEq, Repr, Inhabited

/-- `Options` from `types.go`. -/
structure Options where
  estKWh : ℚ
  carbonWeight : ℚ
  pvWeight : ℚ
deriving DecidableEq, Repr, Inhabited

/-- `Recommendation` from `types.go` (`End` renamed to `stop`). -/
structure Recommendation where
  start : Int
  stop : Int
  costGBP : ℚ
  reason : String
  score : ℚ
deriving DecidableEq, Repr, Inhabited

/-- `WeatherForecast` from `types.go`. -/
structure WeatherForecast where
  date : Int
  sunshineHours : ℚ
  maxTempC : ℚ
  minTempC : ℚ
  precipProb : ℚ
  isSunny : Bool
deriving DecidableEq, Repr, Inhabited

/-- `RecommendationOption` from `types.go`. -/
structure RecommendationOption where
  day : String
  date : Int
  primarySlot : Recommendation
  coupledSlot : Option Recommendation
  totalCostGBP : ℚ
  weather : Option WeatherForecast
  usesNaturalDry : Bool
  savingsVsToday : ℚ
  recommendation : String
deriving DecidableEq, Repr, Inhabited

/-- `SmartRecommendation` from `types.go`. -/
structure SmartRecommendation where
  applianceName : String
  options : List RecommendationOption
  bestOptionIndex : Nat
deriving DecidableEq, Repr, Inhabited

/-- `ControlType` constant `ControlManual` (Go models these as strings). -/
def ControlManual : String := "manual"

/-- `ControlType` constant `ControlSmart`. -/
def ControlSmart : String := "smart"

/-- `ApplianceClass` constant `ClassStandalone`. -/
def ClassStandalone : String := "standalone"

/-- `ApplianceClass` constant `ClassCoupled`. -/
def ClassCoupled : String := "coupled"

/-- `ApplianceClass` constant `ClassWeatherDependent`. -/
def ClassWeatherDependent : String := "weather_dependent"

/-- `Appliance` from `types.go` (`Class` renamed to `appClass`). -/
structure Appliance where
  id : String
  name : String
  cycleMinutes : Int
  toleranceMinutes : Int
  allowedWindows : List TimeWindow
  blockedWindows : List TimeWindow
  finishBy : Option Int
  startBy : Option Int
  noiseLevel : Int
  priceCapPencePerKWh : Option ℚ
  priority : Int
  estKWh : ℚ
  enabled : Bool
  controlType : String
  usageFrequency : String
  appClass : String
  coupledApplianceID : String
  canWaitDays : Int
deriving DecidableEq, Repr, Inhabited

/-- `Household` from `types.go`. -/
structure Household where
  id : String
  name : String
  region : String
  latitude : ℚ
  longitude : ℚ
  quietHours : List TimeWindow
  blockedWindows : List TimeWindow
  availableHours : List TimeWindow
  staggerHeavyLoads : Bool
  carbonWeight : ℚ
deriving DecidableEq, Repr, Inhabited

/-- `engine.go` error values `ErrInvalidInput` / `ErrNoFeasibleSlots`. -/
inductive EngineError where
  | invalidInput
  | noFeasibleSlots
deriving DecidableEq, Repr

/-- `matchesTimeWindow` from `engine.go`: day-of-week gate, then parse the
window's `HH:mm` endpoints (a parse error is a non-match), anchor both to
the timestamp's own day, add 24h to the end when it precedes the start
(overnight window), and test `todayStart <= t < todayEnd`. -/
def matchesTimeWindow (t : Int) (window : TimeWindow) : Bool :=
  if 0 < window.daysOfWeek.length && !(window.daysOfWeek.contains (weekdayOf t)) then
    false
  else
    match parseTimeOfDay window.start, parseTimeOfDay window.stop with
    | some startTime, some endTime =>
      let todayStart := dayStart t + startTime
      let todayEnd0 := dayStart t + endTime
      let todayEnd := if todayEnd0 < todayStart then todayEnd0 + 1440 else todayEnd0
      decide (todayStart ≤ t) && decide (t < todayEnd)
    | _, _ => false

/-- `isInTimeWindows` from `engine.go`. -/
def isInTimeWindows (t : Int) (windows : List TimeWindow) : Bool :=
  windows.any (matchesTimeWindow t)

/-- The per-slot keep condition of `filterByConstraints` (`engine.go`):
the six `continue` checks, in source order. -/
def keepSlot (c : Constraints) (slot : PriceSlot) : Bool :=
  if c.priceCapPence.elim false fun cap => decide (cap < slot.pencePerKWh) then false
  else if decide (0 < c.allowed.length) && !isInTimeWindows slot.start c.allowed then false
  else if decide (0 < c.blocked.length) && isInTimeWindows slot.start c.blocked then false
  else if decide (3 ≤ c.noiseLevel) && decide (0 < c.quietHours.length)
          && isInTimeWindows slot.start c.quietHours then false
  else if c.startBy.elim false fun sb => decide (sb < slot.start) then false
  else if c.finishBy.elim false fun fb => decide (fb < slot.stop) then false
  else true

/-- `filterByConstraints` from `engine.go`: keeps, in order, the slots that
pass every check. -/
def filterByConstraints (slots : List PriceSlot) (c : Constraints) : List PriceSlot :=
  slots.filter (keepSlot c)

/-- `isContiguous` from `engine.go`: every slot starts where the previous
one ends. -/
def isContiguous : List PriceSlot → Bool
  | [] => true
  | [_] => true
  | a :: b :: rest => decide (b.start = a.stop) && isContiguous (b :: rest)

/-- `generateReason` from `engine.go`.  `sort.Float64s` sorts a list of
plain numbers, whose sorted form is unique, so any sorting function models
it exactly; `fmt`'s `%.0f` is modelled by `round` (Go rounds the closest
decimal; the tie behaviour differs only on exact halves). -/
def generateReason (window : List PriceSlot) (totalPence : ℚ) (allSlots : List PriceSlot) : String :=
  let allPrices := List.insertionSort (· ≤ ·) (allSlots.map fun s => s.pencePerKWh)
  let avgPence := totalPence / (window.length : ℚ)
  let percentile : ℚ :=
    match allPrices.findIdx? (fun p => decide (avgPence ≤ p)) with
    | some i => (i : ℚ) / (allPrices.length : ℚ)
    | none => 0
  if percentile < 0.2 then
    "Excellent price (bottom " ++ toString (round (percentile * 100)) ++ "% of the day)"
  else if percentile < 0.4 then
    "Good price (" ++ toString (round (percentile * 100)) ++ "% percentile)"
  else if percentile < 0.6 then
    "Moderate pricing"
  else
    "Higher price (" ++ toString (round (percentile * 100)) ++ "% percentile) but fits constraints"

/-- `int(math.Ceil(float64(runMinutes) / 30.0))`, in the `runMinutes >= 1`
regime in which `BestWindows` evaluates it (exact for every `int` a float64
represents exactly). -/
def requiredSlotCount (runMinutes : Int) : Nat := (runMinutes.toNat + 29) / 30

/-- The candidate window starting at each index `i` with `i + req <= len`:
the sliding window of the `for i := 0; i+requiredSlots <= len(feasible)`
loop in `BestWindows`. -/
def candidateWindows (feasible : List PriceSlot) (req : Nat) : List (List PriceSlot) :=
  (List.range (feasible.length + 1 - req)).map fun i => (feasible.drop i).take req

/-- The `Recommendation` built for one contiguous window in `BestWindows`:
cost loop, GBP conversion, score, and reason. -/
def mkRecommendation (allSlots : List PriceSlot) (opts : Options) (req : Nat)
    (window : List PriceSlot) : Recommendation :=
  let totalPence := window.foldl (fun acc slot => acc + slot.pencePerKWh * (opts.estKWh / (req : ℚ))) 0
  { start := window.headI.start
    stop := (window.getLastD default).stop
    costGBP := totalPence / 100
    reason := generateReason window totalPence allSlots
    score := totalPence }

/-- The candidate list of `BestWindows`: one `Recommendation` per
contiguous sliding window over the feasible slots. -/
def mkCandidates (allSlots : List PriceSlot) (opts : Options) (req : Nat)
    (feasible : List PriceSlot) : List Recommendation :=
  ((candidateWindows feasible req).filter isContiguous).map (mkRecommendation allSlots opts req)

/-- Comparison used by the `sort.Slice` call in `BestWindows` (the sorted
order it must produce): non-decreasing score. -/
def recLE (a b : Recommendation) : Prop := a.score ≤ b.score

instance : DecidableRel recLE := fun a b => inferInstanceAs (Decidable (a.score ≤ b.score))

instance : IsTotal Recommendation recLE := ⟨fun a b => le_total a.score b.score⟩

instance : IsTrans Recommendation recLE := ⟨fun _ _ _ h1 h2 => le_trans h1 h2⟩

/-- `BestWindows` from `engine.go`.  The `sort.Slice(candidates, ...)` call
is modelled by a sorting function satisfying `sort.Slice`'s contract (a
permutation of the candidates, non-decreasing in the comparator);
`sort.Slice` itself is documented as not stable, so the relative order of
equal-score candidates is an artifact of the model, not a guarantee of the
program. -/
def BestWindows (slots : List PriceSlot) (runMinutes : Int) (constraints : Constraints)
    (opts : Options) (topN : Int) : Except EngineError (List Recommendation) :=
  if slots.length = 0 then .error .invalidInput
  else if runMinutes ≤ 0 then .error .invalidInput
  else
    let topN2 : Int := if topN ≤ 0 then 3 else topN
    let req : Nat := requiredSlotCount runMinutes
    let feasible := filterByConstraints slots constraints
    if feasible.length < req then .error .noFeasibleSlots
    else
      let candidates := mkCandidates slots opts req feasible
      if candidates.length = 0 then .error .noFeasibleSlots
      else
        let sorted := List.insertionSort recLE candidates
        .ok (if topN2 < (candidates.length : Int) then sorted.take topN2.toNat else sorted)

/-- `ApplyPracticalConstraints` from `practical.go` (the Go version mutates
`constraints` in place; the model returns the updated value). -/
def ApplyPracticalConstraints (appliance : Appliance) (household : Household)
    (constraints : Constraints) : Constraints :=
  if appliance.controlType == ControlManual then
    if 0 < household.availableHours.length then
      { constraints with allowed := household.availableHours }
    else
      { constraints with allowed := [⟨"07:00", "23:30", [1, 2, 3, 4, 5, 6, 7]⟩] }
  else constraints

/-- Two-digit zero padding, as in Go's zero-padded layout values. -/
def pad2 (n : Nat) : String := if n < 10 then "0" ++ toString n else toString n

/-- Models `t.Format("15:04")` (and `t.Local().Format("15:04")`: the model
works in a single fixed location). -/
def formatHHMM (t : Int) : String :=
  let m := (t.emod 1440).toNat
  pad2 (m / 60) ++ ":" ++ pad2 (m % 60)

/-- Models `fmt`'s `%.2f` on a cost: fixed-point with two decimals (Go
prints the closest decimal of the float; exact-half ties are abstracted by
`round`). -/
def formatGBP (q : ℚ) : String :=
  let n : Int := round (q * 100)
  let a := n.natAbs
  (if n < 0 then "-" else "") ++ toString (a / 100) ++ "." ++ pad2 (a % 100)

/-- Models `t.Format("Monday")`: the full weekday name. -/
def weekdayNameAt (t : Int) : String :=
  ["Monday", "Tuesday", "Wednesday", "Thursday", "Friday", "Saturday", "Sunday"].getD
    (weekdayOf t - 1).toNat "Monday"

/-- `getDayName` from `smart.go` (its `time.Now()` is the explicit `now`). -/
def getDayName (now : Int) (dayOffset : Nat) : String :=
  match dayOffset with
  | 0 => "Today"
  | 1 => "Tomorrow"
  | _ => weekdayNameAt (now + 1440 * dayOffset)

/-- The slot-matching test of `estimateCost`: the slot's start lies in
`[start, stop)`. -/
def inRange (start stop : Int) (p : PriceSlot) : Bool :=
  decide (start ≤ p.start) && decide (p.start < stop)

/-- `estimateCost` from `smart.go`: count the slots whose start lies in
`[start, stop)`; if none, return 0; otherwise split `kwh` evenly across
them, price each share, sum, and convert pence to pounds. -/
def estimateCost (prices : List PriceSlot) (start stop : Int) (kwh : ℚ) : ℚ :=
  let matching := prices.filter (inRange start stop)
  if matching.length = 0 then 0
  else
    (matching.foldl (fun acc p => acc + p.pencePerKWh * (kwh / (matching.length : ℚ))) 0) / 100

/-- `generateStandaloneRecommendation` from `smart.go` (its `time.Now()`
is the explicit `now`; map lookups are keyed by day index, see module
header). -/
def generateStandaloneRecommendation (now : Int) (appliance : Appliance)
    (pricesByDay : Int → Option (List PriceSlot)) (household : Household)
    (constraints : Constraints) (opts : Options) : Except String SmartRecommendation :=
  let options : List RecommendationOption :=
    match pricesByDay (dateKey now) with
    | some prices =>
      match BestWindows prices appliance.cycleMinutes constraints opts 1 with
      | .ok recs =>
        if 0 < recs.length then
          [{ day := "Today"
             date := recs.headI.start
             primarySlot := recs.headI
             coupledSlot := none
             totalCostGBP := recs.headI.costGBP
             weather := none
             usesNaturalDry := false
             savingsVsToday := 0
             recommendation := "Best time: " ++ formatHHMM recs.headI.start ++ " - "
               ++ formatHHMM recs.headI.stop }]
        else []
      | .error _ => []
    | none => []
  if options.length = 0 then .error "no feasible slots found"
  else .ok { applianceName := appliance.name, options := options, bestOptionIndex := 0 }

/-- `daysToCheck` computation at the top of `generateCoupledRecommendation`:
`canWaitDays`, with 0 promoted to 1 and anything above 3 clamped to 3. -/
def daysToCheckOf (washer : Appliance) : Int :=
  let d := washer.canWaitDays
  let d1 := if d = 0 then 1 else d
  if 3 < d1 then 3 else d1

/-- The tumble-dry `RecommendationOption` built in the day loop of
`generateCoupledRecommendation` (`acc` is the option list accumulated so
far: `SavingsVsToday` compares against its first element). -/
def tumbleOption (now : Int) (dayOffset : Nat) (checkDate : Int) (washerSlot : Recommendation)
    (weather : Option WeatherForecast) (dryer : Appliance) (prices : List PriceSlot)
    (acc : List RecommendationOption) : RecommendationOption :=
  let dryerStart := washerSlot.stop
  let dryerEnd := dryerStart + dryer.cycleMinutes
  let dryerCost := estimateCost prices dryerStart dryerEnd dryer.estKWh
  let totalCost := washerSlot.costGBP + dryerCost
  { day := getDayName now dayOffset
    date := checkDate
    primarySlot := washerSlot
    coupledSlot := some { start := dryerStart, stop := dryerEnd, costGBP := dryerCost,
                          reason := "", score := 0 }
    totalCostGBP := totalCost
    weather := weather
    usesNaturalDry := false
    savingsVsToday := if 0 < acc.length then acc.headI.totalCostGBP - totalCost else 0
    recommendation := "Start wash at " ++ formatHHMM washerSlot.start ++ ", finishes at "
      ++ formatHHMM washerSlot.stop ++ ". Then tumble dry until " ++ formatHHMM dryerEnd
      ++ " (£" ++ formatGBP totalCost ++ " total)" }

/-- The line-dry `RecommendationOption` built in the day loop of
`generateCoupledRecommendation` (`acc` already contains the tumble option
appended just before, exactly as in the source). -/
def lineDryOption (now : Int) (dayOffset : Nat) (checkDate : Int) (washerSlot : Recommendation)
    (wf : WeatherForecast) (acc : List RecommendationOption) : RecommendationOption :=
  let savings := if 0 < acc.length then acc.headI.totalCostGBP - washerSlot.costGBP else 0
  { day := getDayName now dayOffset
    date := checkDate
    primarySlot := washerSlot
    coupledSlot := none
    totalCostGBP := washerSlot.costGBP
    weather := some wf
    usesNaturalDry := true
    savingsVsToday := savings
    recommendation := "Start wash at " ++ formatHHMM washerSlot.start ++ ", finishes at "
      ++ formatHHMM washerSlot.stop ++ ". Then hang outside to dry in sunshine (£"
      ++ formatGBP washerSlot.costGBP ++ ", save £" ++ formatGBP savings ++ "!)" }

/-- One iteration of the `dayOffset` loop of `generateCoupledRecommendation`:
skip the day when prices are missing or the washer search fails; otherwise
append the tumble-dry option (when a dryer exists) and then the line-dry
option (when weather exists, is sunny, a dryer exists, and the dryer is
weather-dependent). -/
def coupledDayStep (now : Int) (washer : Appliance) (dryer : Option Appliance)
    (pricesByDay : Int → Option (List PriceSlot)) (weatherByDay : Int → Option WeatherForecast)
    (washerConstraints : Constraints) (washerOpts : Options)
    (acc : List RecommendationOption) (dayOffset : Nat) : List RecommendationOption :=
  let checkDate := now + 1440 * dayOffset
  match pricesByDay (dateKey checkDate) with
  | none => acc
  | some prices =>
    match BestWindows prices washer.cycleMinutes washerConstraints washerOpts 1 with
    | .error _ => acc
    | .ok [] => acc
    | .ok (washerSlot :: _) =>
      let weather := weatherByDay (dateKey checkDate)
      let acc1 :=
        match dryer with
        | some d => acc ++ [tumbleOption now dayOffset checkDate washerSlot weather d prices acc]
        | none => acc
      match weather, dryer with
      | some wf, some d =>
        if wf.isSunny && (d.appClass == ClassWeatherDependent) then
          acc1 ++ [lineDryOption now dayOffset checkDate washerSlot wf acc1]
        else acc1
      | _, _ => acc1

/-- The best-option scan at the end of `generateCoupledRecommendation`:
start at index 0 and replace only on strictly smaller total cost, so the
first occurrence of the minimum wins. -/
def bestIndex (options : List RecommendationOption) : Nat :=
  (List.range' 1 (options.length - 1)).foldl
    (fun bestIdx i =>
      if (options.getD i default).totalCostGBP < (options.getD bestIdx default).totalCostGBP
      then i else bestIdx) 0

/-- `generateCoupledRecommendation` from `smart.go` (its `time.Now()` is
the explicit `now`). -/
def generateCoupledRecommendation (now : Int) (washer : Appliance) (dryer : Option Appliance)
    (pricesByDay : Int → Option (List PriceSlot)) (weatherByDay : Int → Option WeatherForecast)
    (household : Household) (washerConstraints : Constraints) (washerOpts : Options) :
    Except String SmartRecommendation :=
  let options := (List.range (daysToCheckOf washer).toNat).foldl
    (coupledDayStep now washer dryer pricesByDay weatherByDay washerConstraints washerOpts) []
  if options.length = 0 then .error "no feasible options found"
  else .ok { applianceName := washer.name, options := options, bestOptionIndex := bestIndex options }

/-- `GenerateSmartRecommendations` from `smart.go` (its `time.Now()` calls
are the explicit `now`). -/
def GenerateSmartRecommendations (now : Int) (appliance : Appliance)
    (coupledAppliance : Option Appliance) (pricesByDay : Int → Option (List PriceSlot))
    (weatherByDay : Int → Option WeatherForecast) (household : Household)
    (constraints : Constraints) (opts : Options) : Except String SmartRecommendation :=
  if appliance.appClass == ClassStandalone then
    generateStandaloneRecommendation now appliance pricesByDay household constraints opts
  else if appliance.appClass == ClassCoupled && coupledAppliance.isSome then
    generateCoupledRecommendation now appliance coupledAppliance pricesByDay weatherByDay
      household constraints opts
  else .error "unsupported appliance class or missing coupled appliance"

/-- Spec-side feasibility of a slot (the six conditions of §4.1, as the
claim states them; window membership is the shared `isInTimeWindows`). -/
def specFeasible (c : Constraints) (s : PriceSlot) : Prop :=
  (∀ cap, c.priceCapPence = some cap → s.pencePerKWh ≤ cap) ∧
  (c.allowed = [] ∨ isInTimeWindows s.start c.allowed = true) ∧
  (c.blocked = [] ∨ isInTimeWindows s.start c.blocked = false) ∧
  ((3 ≤ c.noiseLevel ∧ c.quietHours ≠ []) → isInTimeWindows s.start c.quietHours = false) ∧
  (∀ sb, c.startBy = some sb → s.start ≤ sb) ∧
  (∀ fb, c.finishBy = some fb → s.stop ≤ fb)

instance decOptionForall {α : Type} {P : α → Prop} [DecidablePred P] :
    (o : Option α) → Decidable (∀ a, o = some a → P a)
  | none => isTrue fun a h => nomatch h
  | some x =>
    decidable_of_iff (P x)
      ⟨fun h a ha => (Option.some.inj ha) ▸ h, fun h => h x rfl⟩

instance (c : Constraints) (s : PriceSlot) : Decidable (specFeasible c s) := by
  unfold specFeasible; infer_instance

/-- Spec-side "a contiguous run of `req` feasible slots exists": some
sliding window over `feasible` is contiguous. -/
def hasContiguousRun (feasible : List PriceSlot) (req : Nat) : Prop :=
  ∃ i, i + req ≤ feasible.length ∧ isContiguous ((feasible.drop i).take req) = true

/-- Whether an `Except` is a success. -/
def isOkB {ε α : Type} : Except ε α → Bool
  | .ok _ => true
  | .error _ => false

/-- The recommendation list of a `BestWindows` result (empty on error). -/
def exceptRecs : Except EngineError (List Recommendation) → List Recommendation
  | .ok l => l
  | .error _ => []

/-- Constraints value with no active constraint. -/
def cTrivial : Constraints :=
  { allowed := [], blocked := [], quietHours := [], finishBy := none, startBy := none,
    priceCapPence := none, noiseLevel := 0 }

/-- Constraint set of claim C1's scenario: a noisy appliance
(`noiseLevel = 4`) with the single overnight quiet window 22:00-07:00 on
every day. -/
def cQuiet : Constraints :=
  { cTrivial with quietHours := [⟨"22:00", "07:00", []⟩], noiseLevel := 4 }

/-- Options fixture: 1 kWh estimated energy. -/
def optsOne : Options := { estKWh := 1, carbonWeight := 0, pvWeight := 0 }

/-- Price slots for claim C1's failing input: two early-morning slots,
02:30-03:00 at 10 p/kWh and 03:00-03:30 at 12 p/kWh. -/
def c1slots : List PriceSlot :=
  [⟨150, 180, 10, true⟩, ⟨180, 210, 12, true⟩]

/-- A single half-hour slot starting at midnight of day 0, 10 p/kWh. -/
def oneSlot : PriceSlot := ⟨0, 30, 10, true⟩

/-- The recommendation `BestWindows [oneSlot] 30 cTrivial optsOne 1`
produces. -/
def oneRec : Recommendation :=
  { start := 0, stop := 30, costGBP := 1 / 10,
    reason := "Excellent price (bottom 0% of the day)", score := 10 }

/-- Appliance fixture for witnesses: a manual standalone 30-minute washer. -/
def aWasher : Appliance :=
  { id := "w", name := "Washer", cycleMinutes := 30, toleranceMinutes := 0,
    allowedWindows := [], blockedWindows := [], finishBy := none, startBy := none,
    noiseLevel := 1, priceCapPencePerKWh := none, priority := 0, estKWh := 1,
    enabled := true, controlType := "manual", usageFrequency := "daily",
    appClass := "coupled", coupledApplianceID := "d", canWaitDays := 1 }

/-- Appliance fixture: a weather-dependent 60-minute dryer. -/
def aDryer : Appliance :=
  { aWasher with
    id := "d"
    name := "Dryer"
    cycleMinutes := 60
    controlType := "smart"
    appClass := "weather_dependent"
    coupledApplianceID := "" }

/-- Appliance fixture: a standalone appliance (for the orchestrator). -/
def aStandalone : Appliance := { aWasher with appClass := "standalone", canWaitDays := 0 }

/-- Household fixture. -/
def hhEmpty : Household :=
  { id := "h", name := "Home", region := "A", latitude := 0, longitude := 0,
    quietHours := [], blockedWindows := [], availableHours := [],
    staggerHeavyLoads := false, carbonWeight := 0 }

/-- Price map fixture: prices exist only on day 0. -/
def pricesDay0 : Int → Option (List PriceSlot) :=
  fun k => if k = 0 then some [oneSlot] else none

/-- Sunny forecast fixture for day 0. -/
def sunnyDay0 : WeatherForecast :=
  { date := 0, sunshineHours := 8, maxTempC := 20, minTempC := 10, precipProb := 5,
    isSunny := true }

/-- Weather map fixture: a sunny forecast on day 0 only. -/
def weatherDay0 : Int → Option WeatherForecast :=
  fun k => if k = 0 then some sunnyDay0 else none

/-- Spec-side "index `b` is the first index attaining the minimal
`totalCostGBP` among the first `n` options": it is in range, no option is
cheaper, and every earlier option is strictly more expensive. -/
def FirstMinIdx (options : List RecommendationOption) (b n : Nat) : Prop :=
  b < n ∧
  (∀ j, j < n →
    (options.getD b default).totalCostGBP ≤ (options.getD j default).totalCostGBP) ∧
  (∀ j, j < b →
    (options.getD b default).totalCostGBP < (options.getD j default).totalCostGBP)

instance {ε α : Type} [DecidableEq ε] [DecidableEq α] : DecidableEq (Except ε α) := fun x y =>
  match x, y with
  | .ok a, .ok b =>
    if h : a = b then isTrue (by rw [h]) else isFalse fun hc => h (Except.ok.inj hc)
  | .error a, .error b =>
    if h : a = b then isTrue (by rw [h]) else isFalse fun hc => h (Except.error.inj hc)
  | .ok _, .error _ => isFalse fun hc => Except.noConfusion hc
  | .error _, .ok _ => isFalse fun hc => Except.noConfusion hc

/-! ## Helper lemmas -/

theorem if_false_bool (b t : Bool) : (if b = true then false else t) = (!b && t) := by
  cases b <;> simp

theorem keepSlot_eq_true_iff (c : Constraints) (s : PriceSlot) :
    keepSlot c s = true ↔ specFeasible c s := by
  unfold keepSlot specFeasible
  rw [if_false_bool, if_false_bool, if_false_bool, if_false_bool, if_false_bool, if_false_bool]
  rcases c.priceCapPence with _ | cap <;>
    rcases c.startBy with _ | sb <;>
      rcases c.finishBy with _ | fb <;>
        simp [Option.elim, Bool.and_eq_true, Bool.not_eq_true', not_lt,
          List.length_pos, List.isEmpty_iff, and_assoc, Bool.not_eq_true,
          Decidable.not_and_iff_or_not, or_iff_not_imp_left, not_le]

theorem keepSlot_eq_decide (c : Constraints) (s : PriceSlot) :
    keepSlot c s = decide (specFeasible c s) := by
  rcases h : keepSlot c s with _ | _
  · have hn : ¬ specFeasible c s := fun hs => by
      have := (keepSlot_eq_true_iff c s).mpr hs
      rw [h] at this
      exact Bool.noConfusion this
    simp [hn]
  · have hy : specFeasible c s := (keepSlot_eq_true_iff c s).mp h
    simp [hy]

theorem foldl_add_map (f : PriceSlot → ℚ) (l : List PriceSlot) :
    ∀ init : ℚ, l.foldl (fun acc s => acc + f s) init = init + (l.map f).sum := by
  induction l with
  | nil => simp
  | cons s l ih => intro init; simp [ih (init + f s), add_assoc]

theorem mem_candidateWindows {feasible : List PriceSlot} {req : Nat} {w : List PriceSlot} :
    w ∈ candidateWindows feasible req ↔
      ∃ i, i < feasible.length + 1 - req ∧ w = (feasible.drop i).take req := by
  simp only [candidateWindows, List.mem_map, List.mem_range]
  constructor
  · rintro ⟨i, hi, rfl⟩; exact ⟨i, hi, rfl⟩
  · rintro ⟨i, hi, rfl⟩; exact ⟨i, hi, rfl⟩

theorem candidateWindow_length (feasible : List PriceSlot) (req i : Nat)
    (h : i + req ≤ feasible.length) : ((feasible.drop i).take req).length = req := by
  simp only [List.length_take, List.length_drop]
  omega

theorem mem_mkCandidates {allSlots : List PriceSlot} {opts : Options} {req : Nat}
    {feasible : List PriceSlot} {r : Recommendation} :
    r ∈ mkCandidates allSlots opts req feasible ↔
      ∃ w, w ∈ candidateWindows feasible req ∧ isContiguous w = true ∧
        r = mkRecommendation allSlots opts req w := by
  simp only [mkCandidates, List.mem_map, List.mem_filter]
  constructor
  · rintro ⟨w, ⟨hw, hc⟩, rfl⟩; exact ⟨w, hw, hc, rfl⟩
  · rintro ⟨w, hw, hc, rfl⟩; exact ⟨w, ⟨hw, hc⟩, rfl⟩

theorem mkRecommendation_score (allSlots : List PriceSlot) (opts : Options) (req : Nat)
    (w : List PriceSlot) :
    (mkRecommendation allSlots opts req w).score =
      (w.map fun s => s.pencePerKWh * (opts.estKWh / (req : ℚ))).sum := by
  simp [mkRecommendation, foldl_add_map]

theorem mkRecommendation_cost (allSlots : List PriceSlot) (opts : Options) (req : Nat)
    (w : List PriceSlot) :
    (mkRecommendation allSlots opts req w).costGBP =
      (mkRecommendation allSlots opts req w).score / 100 := rfl

theorem mkCandidates_eq_nil_iff (allSlots : List PriceSlot) (opts : Options) (req : Nat)
    (feasible : List PriceSlot) (h : req ≤ feasible.length) :
    mkCandidates allSlots opts req feasible = [] ↔ ¬ hasContiguousRun feasible req := by
  rw [mkCandidates, List.map_eq_nil_iff, List.filter_eq_nil_iff]
  unfold hasContiguousRun
  constructor
  · rintro hall ⟨i, hle, hcontig⟩
    exact hall _ (mem_candidateWindows.mpr ⟨i, by omega, rfl⟩) hcontig
  · intro hnone w hw hcontig
    rcases mem_candidateWindows.mp hw with ⟨i, hi, rfl⟩
    exact hnone ⟨i, by omega, hcontig⟩

theorem bestWindows_eq_invalidInput_iff (slots : List PriceSlot) (runMinutes : Int)
    (c : Constraints) (opts : Options) (topN : Int) :
    BestWindows slots runMinutes c opts topN = .error .invalidInput ↔
      slots = [] ∨ runMinutes ≤ 0 := by
  unfold BestWindows
  split_ifs with h1 h2 h3 <;>
    simp_all [List.length_eq_zero] <;>
    split_ifs <;> simp_all

theorem bestWindows_eq_noFeasible_iff (slots : List PriceSlot) (runMinutes : Int)
    (c : Constraints) (opts : Options) (topN : Int) :
    BestWindows slots runMinutes c opts topN = .error .noFeasibleSlots ↔
      (slots ≠ [] ∧ 0 < runMinutes) ∧
        ((filterByConstraints slots c).length < requiredSlotCount runMinutes ∨
          ¬ hasContiguousRun (filterByConstraints slots c) (requiredSlotCount runMinutes)) := by
  by_cases h1 : slots.length = 0
  · rw [BestWindows, if_pos h1]
    simp [List.length_eq_zero.mp h1]
  have h1' : slots ≠ [] := by simpa [List.length_eq_zero] using h1
  by_cases h2 : runMinutes ≤ 0
  · rw [BestWindows, if_neg h1, if_pos h2]
    simp [not_lt.mpr h2]
  have h2' : 0 < runMinutes := not_le.mp h2
  by_cases h4 : (filterByConstraints slots c).length < requiredSlotCount runMinutes
  · simp only [BestWindows, if_neg h1, if_neg h2, if_pos h4]
    simp [h1', h2', h4]
  by_cases h5 : (mkCandidates slots opts (requiredSlotCount runMinutes)
      (filterByConstraints slots c)).length = 0
  · simp only [BestWindows, if_neg h1, if_neg h2, if_neg h4, if_pos h5]
    have hno : ¬ hasContiguousRun (filterByConstraints slots c) (requiredSlotCount runMinutes) :=
      (mkCandidates_eq_nil_iff slots opts _ _ (not_lt.mp h4)).mp (List.length_eq_zero.mp h5)
    simp [h1', h2', hno]
  · simp only [BestWindows, if_neg h1, if_neg h2, if_neg h4, if_neg h5]
    have hrun : hasContiguousRun (filterByConstraints slots c) (requiredSlotCount runMinutes) := by
      by_contra hno
      exact h5 (by rw [(mkCandidates_eq_nil_iff slots opts _ _ (not_lt.mp h4)).mpr hno]; rfl)
    simp [h4, hrun]

theorem bestWindows_ok_ne_nil (slots : List PriceSlot) (runMinutes : Int) (c : Constraints)
    (opts : Options) (topN : Int) (recs : List Recommendation)
    (h : BestWindows slots runMinutes c opts topN = .ok recs) : recs ≠ [] := by
  by_cases h1 : slots.length = 0
  · rw [BestWindows, if_pos h1] at h; exact absurd h (by simp)
  by_cases h2 : runMinutes ≤ 0
  · rw [BestWindows, if_neg h1, if_pos h2] at h; exact absurd h (by simp)
  by_cases h4 : (filterByConstraints slots c).length < requiredSlotCount runMinutes
  · simp only [BestWindows, if_neg h1, if_neg h2, if_pos h4] at h; exact absurd h (by simp)
  by_cases h5 : (mkCandidates slots opts (requiredSlotCount runMinutes)
      (filterByConstraints slots c)).length = 0
  · simp only [BestWindows, if_neg h1, if_neg h2, if_neg h4, if_pos h5] at h
    exact absurd h (by simp)
  · simp only [BestWindows, if_neg h1, if_neg h2, if_neg h4, if_neg h5, Except.ok.injEq] at h
    subst h
    have hs : (List.insertionSort recLE (mkCandidates slots opts (requiredSlotCount runMinutes)
        (filterByConstraints slots c))).length ≠ 0 := by
      rw [List.length_insertionSort]; exact h5
    split_ifs with h6 h7 h8 <;> intro hnil <;>
      first
        | exact hs (by rw [hnil]; rfl)
        | (rw [List.take_eq_nil_iff] at hnil
           rcases hnil with hz | hnil
           · omega
           · exact hs (by rw [hnil]; rfl))

theorem bestWindows_mem_ok (slots : List PriceSlot) (runMinutes : Int) (c : Constraints)
    (opts : Options) (topN : Int) (recs : List Recommendation) (r : Recommendation)
    (hok : BestWindows slots runMinutes c opts topN = .ok recs) (hr : r ∈ recs) :
    requiredSlotCount runMinutes ≤ (filterByConstraints slots c).length ∧
      r ∈ mkCandidates slots opts (requiredSlotCount runMinutes) (filterByConstraints slots c) := by
  by_cases h1 : slots.length = 0
  · rw [BestWindows, if_pos h1] at hok; exact absurd hok (by simp)
  by_cases h2 : runMinutes ≤ 0
  · rw [BestWindows, if_neg h1, if_pos h2] at hok; exact absurd hok (by simp)
  by_cases h4 : (filterByConstraints slots c).length < requiredSlotCount runMinutes
  · simp only [BestWindows, if_neg h1, if_neg h2, if_pos h4] at hok; exact absurd hok (by simp)
  by_cases h5 : (mkCandidates slots opts (requiredSlotCount runMinutes)
      (filterByConstraints slots c)).length = 0
  · simp only [BestWindows, if_neg h1, if_neg h2, if_neg h4, if_pos h5] at hok
    exact absurd hok (by simp)
  · simp only [BestWindows, if_neg h1, if_neg h2, if_neg h4, if_neg h5, Except.ok.injEq] at hok
    subst hok
    refine ⟨not_lt.mp h4, ?_⟩
    have hr2 : r ∈ List.insertionSort recLE (mkCandidates slots opts
        (requiredSlotCount runMinutes) (filterByConstraints slots c)) := by
      split_ifs at hr with h6 h7 h8 <;>
        first
          | exact hr
          | exact List.take_subset _ _ hr
    exact (List.perm_insertionSort recLE _).mem_iff.mp hr2

theorem mem_foldl_of_mem {α β : Type} (f : List α → β → List α)
    (hpres : ∀ acc j, ∀ x ∈ acc, x ∈ f acc j) :
    ∀ (L : List β) (acc : List α) (x : α), x ∈ acc → x ∈ L.foldl f acc := by
  intro L
  induction L with
  | nil => intro acc x hx; simpa using hx
  | cons b L ih => intro acc x hx; exact ih (f acc b) x (hpres acc b x hx)

theorem exists_mem_foldl {α β : Type} (f : List α → β → List α) (Q : α → Prop) (i : β)
    (hpres : ∀ acc j, ∀ x ∈ acc, x ∈ f acc j)
    (hadd : ∀ acc, ∃ x ∈ f acc i, Q x) :
    ∀ (L : List β) (acc : List α), i ∈ L → ∃ x ∈ L.foldl f acc, Q x := by
  intro L
  induction L with
  | nil => intro acc h; exact absurd h (List.not_mem_nil i)
  | cons b L ih =>
    intro acc hmem
    rcases List.mem_cons.mp hmem with rfl | h
    · obtain ⟨x, hx, hQ⟩ := hadd acc
      exact ⟨x, mem_foldl_of_mem f hpres L (f acc i) x hx, hQ⟩
    · exact ih (f acc b) h

theorem coupledDayStep_preserves (now : Int) (washer : Appliance) (dryer : Option Appliance)
    (pricesByDay : Int → Option (List PriceSlot)) (weatherByDay : Int → Option WeatherForecast)
    (c : Constraints) (o : Options) :
    ∀ acc j, ∀ x ∈ acc,
      x ∈ coupledDayStep now washer dryer pricesByDay weatherByDay c o acc j := by
  intro acc j x hx
  simp only [coupledDayStep]
  cases hp : pricesByDay (dateKey (now + 1440 * j)) with
  | none => exact hx
  | some prices =>
    dsimp only
    cases hbw : BestWindows prices washer.cycleMinutes c o 1 with
    | error e => exact hx
    | ok recs =>
      cases recs with
      | nil => exact hx
      | cons ws rest =>
        dsimp only
        cases dryer with
        | none =>
          cases hw : weatherByDay (dateKey (now + 1440 * j)) <;> exact hx
        | some d =>
          dsimp only
          cases hw : weatherByDay (dateKey (now + 1440 * j)) with
          | none => exact List.mem_append_left _ hx
          | some wf =>
            show x ∈ if wf.isSunny && (d.appClass == ClassWeatherDependent) then _ else _
            by_cases hsun : wf.isSunny && (d.appClass == ClassWeatherDependent)
            · rw [if_pos hsun]
              exact List.mem_append_left _ (List.mem_append_left _ hx)
            · rw [if_neg hsun]
              exact List.mem_append_left _ hx

theorem step_adds_lineDry (now : Int) (washer d : Appliance)
    (pricesByDay : Int → Option (List PriceSlot)) (weatherByDay : Int → Option WeatherForecast)
    (c : Constraints) (o : Options) (j : Nat) (prices : List PriceSlot)
    (ws : Recommendation) (rest : List Recommendation) (wf : WeatherForecast)
    (hp : pricesByDay (dateKey (now + 1440 * j)) = some prices)
    (hbw : BestWindows prices washer.cycleMinutes c o 1 = .ok (ws :: rest))
    (hw : weatherByDay (dateKey (now + 1440 * j)) = some wf)
    (hsun : wf.isSunny = true) (hcls : d.appClass = ClassWeatherDependent) :
    ∀ acc, ∃ x ∈ coupledDayStep now washer (some d) pricesByDay weatherByDay c o acc j,
      x.usesNaturalDry = true ∧ x.totalCostGBP = ws.costGBP ∧ x.primarySlot = ws ∧
      x.coupledSlot = none ∧ x.date = now + 1440 * j := by
  intro acc
  simp only [coupledDayStep, hp, hbw, hw]
  have hcond : (wf.isSunny && (d.appClass == ClassWeatherDependent)) = true := by
    rw [hsun, hcls]; simp
  rw [if_pos hcond]
  refine ⟨_, List.mem_append_right _ (List.mem_singleton_self _), ?_⟩
  exact ⟨rfl, rfl, rfl, rfl, rfl⟩

theorem estimateCost_eq_zero (prices : List PriceSlot) (start stop : Int) (kwh : ℚ)
    (h : ∀ p ∈ prices, ¬(start ≤ p.start ∧ p.start < stop)) :
    estimateCost prices start stop kwh = 0 := by
  have hfil : prices.filter (inRange start stop) = [] := by
    rw [List.filter_eq_nil_iff]
    intro p hp
    simp only [inRange, Bool.and_eq_true, decide_eq_true_eq]
    exact fun hc => h p hp ⟨hc.1, hc.2⟩
  simp [estimateCost, hfil]

theorem step_adds_tumble (now : Int) (washer d : Appliance)
    (pricesByDay : Int → Option (List PriceSlot)) (weatherByDay : Int → Option WeatherForecast)
    (c : Constraints) (o : Options) (j : Nat) (prices : List PriceSlot)
    (ws : Recommendation) (rest : List Recommendation)
    (hp : pricesByDay (dateKey (now + 1440 * j)) = some prices)
    (hbw : BestWindows prices washer.cycleMinutes c o 1 = .ok (ws :: rest))
    (hz : estimateCost prices ws.stop (ws.stop + d.cycleMinutes) d.estKWh = 0) :
    ∀ acc, ∃ x ∈ coupledDayStep now washer (some d) pricesByDay weatherByDay c o acc j,
      x.usesNaturalDry = false ∧
      x.coupledSlot = some ⟨ws.stop, ws.stop + d.cycleMinutes, 0, "", 0⟩ ∧
      x.totalCostGBP = ws.costGBP ∧ x.primarySlot = ws ∧ x.date = now + 1440 * j := by
  intro acc
  simp only [coupledDayStep, hp, hbw]
  have hfields : ∀ weather,
      (tumbleOption now j (now + 1440 * j) ws weather d prices acc).usesNaturalDry = false ∧
      (tumbleOption now j (now + 1440 * j) ws weather d prices acc).coupledSlot =
        some ⟨ws.stop, ws.stop + d.cycleMinutes, 0, "", 0⟩ ∧
      (tumbleOption now j (now + 1440 * j) ws weather d prices acc).totalCostGBP = ws.costGBP ∧
      (tumbleOption now j (now + 1440 * j) ws weather d prices acc).primarySlot = ws ∧
      (tumbleOption now j (now + 1440 * j) ws weather d prices acc).date = now + 1440 * j := by
    intro weather
    refine ⟨rfl, ?_, ?_, rfl, rfl⟩
    · simp [tumbleOption, hz]
    · simp [tumbleOption, hz]
  cases hw : weatherByDay (dateKey (now + 1440 * j)) with
  | none =>
    exact ⟨_, List.mem_append_right _ (List.mem_singleton_self _), hfields none⟩
  | some wf =>
    dsimp only
    by_cases hsun : (wf.isSunny && (d.appClass == ClassWeatherDependent)) = true
    · rw [if_pos hsun]
      exact ⟨_, List.mem_append_left _ (List.mem_append_right _ (List.mem_singleton_self _)),
        hfields (some wf)⟩
    · rw [if_neg hsun]
      exact ⟨_, List.mem_append_right _ (List.mem_singleton_self _), hfields (some wf)⟩

theorem bestIndex_fold_inv (opts : List RecommendationOption) :
    ∀ (len s b : Nat), FirstMinIdx opts b s →
      FirstMinIdx opts
        ((List.range' s len).foldl (fun bi i =>
          if (opts.getD i default).totalCostGBP < (opts.getD bi default).totalCostGBP then i
          else bi) b) (s + len) := by
  intro len
  induction len with
  | zero => intro s b h; simpa using h
  | succ n ih =>
    intro s b h
    rw [List.range'_succ, List.foldl_cons]
    have hstep : FirstMinIdx opts
        (if (opts.getD s default).totalCostGBP < (opts.getD b default).totalCostGBP then s
         else b) (s + 1) := by
      obtain ⟨hb, hle, hlt⟩ := h
      by_cases hc : (opts.getD s default).totalCostGBP < (opts.getD b default).totalCostGBP
      · rw [if_pos hc]
        refine ⟨by omega, ?_, ?_⟩
        · intro j hj
          rcases Nat.lt_succ_iff_lt_or_eq.mp hj with hj' | rfl
          · exact le_of_lt (lt_of_lt_of_le hc (hle j hj'))
          · exact le_refl _
        · intro j hj
          exact lt_of_lt_of_le hc (hle j hj)
      · rw [if_neg hc]
        refine ⟨by omega, ?_, hlt⟩
        intro j hj
        rcases Nat.lt_succ_iff_lt_or_eq.mp hj with hj' | rfl
        · exact hle j hj'
        · exact not_lt.mp hc
    have hrec := ih (s + 1) _ hstep
    have harith : s + 1 + n = s + (n + 1) := by omega
    rwa [harith] at hrec

theorem bestIndex_firstMin (opts : List RecommendationOption) (h : opts ≠ []) :
    FirstMinIdx opts (bestIndex opts) opts.length := by
  have hlen : 0 < opts.length := List.length_pos.mpr h
  have hbase : FirstMinIdx opts 0 1 := by
    refine ⟨by omega, ?_, by omega⟩
    intro j hj
    have hj0 : j = 0 := by omega
    simp [hj0]
  have hinv := bestIndex_fold_inv opts (opts.length - 1) 1 0 hbase
  have harith : 1 + (opts.length - 1) = opts.length := by omega
  rw [harith] at hinv
  exact hinv

theorem generateCoupled_ok (now : Int) (washer : Appliance) (dryer : Option Appliance)
    (pricesByDay : Int → Option (List PriceSlot)) (weatherByDay : Int → Option WeatherForecast)
    (hh : Household) (c : Constraints) (o : Options)
    (hne : (List.range (daysToCheckOf washer).toNat).foldl
      (coupledDayStep now washer dryer pricesByDay weatherByDay c o) [] ≠ []) :
    generateCoupledRecommendation now washer dryer pricesByDay weatherByDay hh c o =
      .ok ⟨washer.name,
        (List.range (daysToCheckOf washer).toNat).foldl
          (coupledDayStep now washer dryer pricesByDay weatherByDay c o) [],
        bestIndex ((List.range (daysToCheckOf washer).toNat).foldl
          (coupledDayStep now washer dryer pricesByDay weatherByDay c o) [])⟩ := by
  have hlen : ¬ ((List.range (daysToCheckOf washer).toNat).foldl
      (coupledDayStep now washer dryer pricesByDay weatherByDay c o) []).length = 0 := by
    simpa [List.length_eq_zero] using hne
  simp only [generateCoupledRecommendation]
  rw [if_neg hlen]

/-! ## Claim theorems -/

/-- C2: `filterByConstraints` returns exactly the order-preserving
subsequence of the input slots satisfying the six spec conditions: price
cap absent or respected, allowed windows empty or hit, blocked windows
empty or missed, quiet-hours missed when `noiseLevel >= 3` and quiet hours
exist, `startBy` absent or respected by the slot start, and `finishBy`
absent or respected by the slot end. -/
theorem c2_filterByConstraints_spec (slots : List PriceSlot) (c : Constraints) :
    filterByConstraints slots c = slots.filter fun s => decide (specFeasible c s) := by
  unfold filterByConstraints
  exact List.filter_congr fun s _ => keepSlot_eq_decide c s

/-- C8: `filterByConstraints` is idempotent: filtering an already-filtered
sequence with the same constraints returns it unchanged. -/
theorem c8_filterByConstraints_idempotent (slots : List PriceSlot) (c : Constraints) :
    filterByConstraints (filterByConstraints slots c) c = filterByConstraints slots c := by
  simp [filterByConstraints, List.filter_filter]

/-- C3: `BestWindows` returns `InvalidInput` iff the slot list is empty or
`runMinutes <= 0`; otherwise it returns `NoFeasibleSlots` iff fewer
feasible slots survive filtering than `ceil(runMinutes / 30)` or no
contiguous run of that many feasible slots exists; in every other case the
recommendation list it returns is non-empty. -/
theorem c3_bestWindows_error_characterization (slots : List PriceSlot) (runMinutes : Int)
    (c : Constraints) (opts : Options) (topN : Int) :
    (BestWindows slots runMinutes c opts topN = .error .invalidInput ↔
      slots = [] ∨ runMinutes ≤ 0) ∧
    (BestWindows slots runMinutes c opts topN = .error .noFeasibleSlots ↔
      (slots ≠ [] ∧ 0 < runMinutes) ∧
        ((filterByConstraints slots c).length < requiredSlotCount runMinutes ∨
          ¬ hasContiguousRun (filterByConstraints slots c) (requiredSlotCount runMinutes))) ∧
    (∀ recs, BestWindows slots runMinutes c opts topN = .ok recs → recs ≠ []) :=
  ⟨bestWindows_eq_invalidInput_iff slots runMinutes c opts topN,
   bestWindows_eq_noFeasible_iff slots runMinutes c opts topN,
   fun recs h => bestWindows_ok_ne_nil slots runMinutes c opts topN recs h⟩

/-- C3 witness: an empty slot list yields `InvalidInput`; a 90-minute run
over a single half-hour slot yields `NoFeasibleSlots` (1 feasible slot
< 3 required); a satisfiable request yields a non-empty list. -/
theorem c3_witness :
    BestWindows ([] : List PriceSlot) 30 cTrivial optsOne 3 = .error .invalidInput ∧
    BestWindows [oneSlot] 90 cTrivial optsOne 3 = .error .noFeasibleSlots ∧
    ([oneRec] : List Recommendation) ≠ [] :=
  ⟨(c3_bestWindows_error_characterization [] 30 cTrivial optsOne 3).1.mpr (Or.inl rfl),
   (c3_bestWindows_error_characterization [oneSlot] 90 cTrivial optsOne 3).2.1.mpr
     ⟨⟨by simp, by norm_num⟩, Or.inl (by with_unfolding_all decide)⟩,
   (c3_bestWindows_error_characterization [oneSlot] 30 cTrivial optsOne 3).2.2 [oneRec]
     (by with_unfolding_all decide)⟩

/-- C4: every recommendation `BestWindows` returns comes from a contiguous
window of `requiredSlotCount runMinutes` feasible slots, its score is the
sum over the window's slots of `price * (estKWh / requiredSlots)`, and its
cost in GBP is that score divided by 100. -/
theorem c4_bestWindows_cost_formula (slots : List PriceSlot) (runMinutes : Int)
    (c : Constraints) (opts : Options) (topN : Int) (recs : List Recommendation)
    (r : Recommendation)
    (hok : BestWindows slots runMinutes c opts topN = .ok recs) (hr : r ∈ recs) :
    ∃ w, w ∈ candidateWindows (filterByConstraints slots c) (requiredSlotCount runMinutes) ∧
      w.length = requiredSlotCount runMinutes ∧ isContiguous w = true ∧
      r.score = (w.map fun s =>
        s.pencePerKWh * (opts.estKWh / ((requiredSlotCount runMinutes : ℚ)))).sum ∧
      r.costGBP = r.score / 100 := by
  obtain ⟨hle, hmem⟩ := bestWindows_mem_ok slots runMinutes c opts topN recs r hok hr
  rcases mem_mkCandidates.mp hmem with ⟨w, hw, hcontig, rfl⟩
  rcases mem_candidateWindows.mp hw with ⟨i, hi, hweq⟩
  refine ⟨w, hw, ?_, hcontig, mkRecommendation_score slots opts _ w,
    mkRecommendation_cost slots opts _ w⟩
  rw [hweq]
  exact candidateWindow_length _ _ _ (by omega)

/-- C4 witness: the theorem applied to a concrete one-slot run. -/
theorem c4_witness :
    ∃ w, w ∈ candidateWindows (filterByConstraints [oneSlot] cTrivial) (requiredSlotCount 30) ∧
      w.length = requiredSlotCount 30 ∧ isContiguous w = true ∧
      oneRec.score = (w.map fun s =>
        s.pencePerKWh * (optsOne.estKWh / ((requiredSlotCount 30 : ℚ)))).sum ∧
      oneRec.costGBP = oneRec.score / 100 :=
  c4_bestWindows_cost_formula [oneSlot] 30 cTrivial optsOne 1 [oneRec] oneRec
    (by with_unfolding_all decide) (by simp)

/-- C7: `ApplyPracticalConstraints` with a manual-control appliance sets
`allowed` to the household's `availableHours` when non-empty, else to the
default 07:00-23:30 every-day window, and changes nothing else (the record
update keeps `blocked`, `quietHours`, `finishBy`, `startBy`,
`priceCapPence`, and `noiseLevel`); with a smart-control appliance it
returns the constraints unchanged. -/
theorem c7_applyPracticalConstraints (a : Appliance) (hh : Household) (c : Constraints) :
    (a.controlType = ControlManual →
      ApplyPracticalConstraints a hh c =
        { c with allowed := if 0 < hh.availableHours.length then hh.availableHours
                            else [⟨"07:00", "23:30", [1, 2, 3, 4, 5, 6, 7]⟩] }) ∧
    (a.controlType = ControlSmart → ApplyPracticalConstraints a hh c = c) := by
  constructor
  · intro h
    unfold ApplyPracticalConstraints
    rw [h]
    simp only [beq_self_eq_true, if_true]
    split <;> rfl
  · intro h
    unfold ApplyPracticalConstraints
    rw [h]
    rfl

/-- C7 witness: concrete manual and smart appliances; the household has no
available hours, so the manual branch installs the default window. -/
theorem c7_witness :
    ApplyPracticalConstraints aWasher hhEmpty cTrivial =
      { cTrivial with allowed := [⟨"07:00", "23:30", [1, 2, 3, 4, 5, 6, 7]⟩] } ∧
    ApplyPracticalConstraints aDryer hhEmpty cTrivial = cTrivial := by
  refine ⟨((c7_applyPracticalConstraints aWasher hhEmpty cTrivial).1 rfl).trans ?_,
    (c7_applyPracticalConstraints aDryer hhEmpty cTrivial).2 rfl⟩
  rfl

/-- C1 (failing-input evaluation): with `noiseLevel = 4` and the single
overnight quiet window 22:00-07:00 on all days, `BestWindows` succeeds on
two early-morning slots and returns a recommendation starting at 02:30 -
a start whose time-of-day lies in the wrapped post-midnight portion
[00:00, 07:00) that the claim requires to be excluded
(`matchesTimeWindow` anchors the window start to the timestamp's own day,
so the post-midnight part of an overnight window never matches). -/
theorem c1_quietHours_morning_leak :
    isOkB (BestWindows c1slots 30 cQuiet optsOne 3) = true ∧
    ∃ r ∈ exceptRecs (BestWindows c1slots 30 cQuiet optsOne 3),
      0 ≤ r.start.emod 1440 ∧ r.start.emod 1440 < 420 := by
  with_unfolding_all decide

/-- C9 counterexample: the claim says two invocations of
`generateSmartRecommendations` with identical argument values return
identical results, but the function also reads the wall clock
(`time.Now()`, the explicit `now` of the model): with identical arguments,
the call succeeds when the clock reads day 0 (prices exist for that date
key) and fails when it reads day 1. -/
theorem c9_counterexample_time_dependence :
    GenerateSmartRecommendations 0 aStandalone none pricesDay0 weatherDay0 hhEmpty
      cTrivial optsOne ≠
    GenerateSmartRecommendations 1440 aStandalone none pricesDay0 weatherDay0 hhEmpty
      cTrivial optsOne := by
  with_unfolding_all decide

/-- C9 (amended): `generateSmartRecommendations` is deterministic given
the wall-clock instant: at the same current time, invocations whose
snapshot maps agree pointwise (and whose other arguments are equal) return
identical results. -/
theorem c9_deterministic_given_now (now : Int) (a : Appliance) (ca : Option Appliance)
    (p1 p2 : Int → Option (List PriceSlot)) (w1 w2 : Int → Option WeatherForecast)
    (hh : Household) (c : Constraints) (o : Options)
    (hp : ∀ k, p1 k = p2 k) (hw : ∀ k, w1 k = w2 k) :
    GenerateSmartRecommendations now a ca p1 w1 hh c o =
    GenerateSmartRecommendations now a ca p2 w2 hh c o := by
  rw [funext hp, funext hw]

/-- C9 witness: the amended determinism applied at a concrete instant and
concrete snapshots. -/
theorem c9_witness :
    GenerateSmartRecommendations 0 aStandalone none pricesDay0 weatherDay0 hhEmpty
      cTrivial optsOne =
    GenerateSmartRecommendations 0 aStandalone none pricesDay0 weatherDay0 hhEmpty
      cTrivial optsOne :=
  c9_deterministic_given_now 0 aStandalone none pricesDay0 pricesDay0 weatherDay0 weatherDay0
    hhEmpty cTrivial optsOne (fun _ => rfl) (fun _ => rfl)

/-- C6: for a coupled appliance with a weather-dependent paired dryer, on
every checked day (`dayOffset < daysToCheck`) whose prices yield a
feasible primary window and whose weather forecast exists and is sunny,
the returned options include a line-dry option with `usesNaturalDry` set
whose total cost is the primary slot's cost alone, and `bestOptionIndex`
is the first index attaining the minimal total cost over all generated
options. -/
theorem c6_coupled_lineDry_and_bestIndex (now : Int) (washer d : Appliance)
    (pricesByDay : Int → Option (List PriceSlot)) (weatherByDay : Int → Option WeatherForecast)
    (hh : Household) (c : Constraints) (o : Options) (dayOffset : Nat)
    (prices : List PriceSlot) (ws : Recommendation) (rest : List Recommendation)
    (wf : WeatherForecast)
    (hcls : d.appClass = ClassWeatherDependent)
    (hday : dayOffset < (daysToCheckOf washer).toNat)
    (hp : pricesByDay (dateKey (now + 1440 * dayOffset)) = some prices)
    (hbw : BestWindows prices washer.cycleMinutes c o 1 = .ok (ws :: rest))
    (hw : weatherByDay (dateKey (now + 1440 * dayOffset)) = some wf)
    (hsun : wf.isSunny = true) :
    ∃ r, generateCoupledRecommendation now washer (some d) pricesByDay weatherByDay hh c o =
        .ok r ∧
      (∃ opt ∈ r.options, opt.usesNaturalDry = true ∧ opt.totalCostGBP = ws.costGBP ∧
        opt.primarySlot = ws ∧ opt.coupledSlot = none ∧ opt.date = now + 1440 * dayOffset) ∧
      FirstMinIdx r.options r.bestOptionIndex r.options.length := by
  have hpres := coupledDayStep_preserves now washer (some d) pricesByDay weatherByDay c o
  have hadd := step_adds_lineDry now washer d pricesByDay weatherByDay c o dayOffset prices
    ws rest wf hp hbw hw hsun hcls
  have hex := exists_mem_foldl _ _ dayOffset hpres hadd
    (List.range (daysToCheckOf washer).toNat) [] (List.mem_range.mpr hday)
  obtain ⟨x, hx, hQ⟩ := hex
  have hne : (List.range (daysToCheckOf washer).toNat).foldl
      (coupledDayStep now washer (some d) pricesByDay weatherByDay c o) [] ≠ [] :=
    fun h0 => by rw [h0] at hx; exact List.not_mem_nil x hx
  exact ⟨_, generateCoupled_ok now washer (some d) pricesByDay weatherByDay hh c o hne,
    ⟨x, hx, hQ⟩, bestIndex_firstMin _ hne⟩

/-- C6 witness: day 0 of a one-day lookahead, one price slot, a sunny
forecast, and a weather-dependent dryer. -/
theorem c6_witness :
    ∃ r, generateCoupledRecommendation 0 aWasher (some aDryer) pricesDay0 weatherDay0 hhEmpty
        cTrivial optsOne = .ok r ∧
      (∃ opt ∈ r.options, opt.usesNaturalDry = true ∧ opt.totalCostGBP = oneRec.costGBP ∧
        opt.primarySlot = oneRec ∧ opt.coupledSlot = none ∧ opt.date = 0 + 1440 * (0 : Nat)) ∧
      FirstMinIdx r.options r.bestOptionIndex r.options.length :=
  c6_coupled_lineDry_and_bestIndex 0 aWasher aDryer pricesDay0 weatherDay0 hhEmpty cTrivial
    optsOne 0 [oneSlot] oneRec [] sunnyDay0 rfl (by with_unfolding_all decide)
    (by with_unfolding_all decide) (by with_unfolding_all decide)
    (by with_unfolding_all decide) rfl

/-- C10: when no supplied price slot for the day starts inside the
successor window `[ws.stop, ws.stop + dryer.cycleMinutes)`, `estimateCost`
returns exactly 0, and the generated tumble-dry option carries a coupled
slot costed at 0 and a total cost equal to the primary (washer) cost
alone - the successor run is silently priced as free, not reported as an
error. -/
theorem c10_estimateCost_zero (now : Int) (washer d : Appliance)
    (pricesByDay : Int → Option (List PriceSlot)) (weatherByDay : Int → Option WeatherForecast)
    (hh : Household) (c : Constraints) (o : Options) (dayOffset : Nat)
    (prices : List PriceSlot) (ws : Recommendation) (rest : List Recommendation)
    (hday : dayOffset < (daysToCheckOf washer).toNat)
    (hp : pricesByDay (dateKey (now + 1440 * dayOffset)) = some prices)
    (hbw : BestWindows prices washer.cycleMinutes c o 1 = .ok (ws :: rest))
    (hnomatch : ∀ p ∈ prices, ¬(ws.stop ≤ p.start ∧ p.start < ws.stop + d.cycleMinutes)) :
    estimateCost prices ws.stop (ws.stop + d.cycleMinutes) d.estKWh = 0 ∧
    ∃ r, generateCoupledRecommendation now washer (some d) pricesByDay weatherByDay hh c o =
        .ok r ∧
      ∃ opt ∈ r.options, opt.usesNaturalDry = false ∧
        opt.coupledSlot = some ⟨ws.stop, ws.stop + d.cycleMinutes, 0, "", 0⟩ ∧
        opt.totalCostGBP = ws.costGBP ∧ opt.primarySlot = ws := by
  have hz := estimateCost_eq_zero prices ws.stop (ws.stop + d.cycleMinutes) d.estKWh hnomatch
  refine ⟨hz, ?_⟩
  have hpres := coupledDayStep_preserves now washer (some d) pricesByDay weatherByDay c o
  have hadd := step_adds_tumble now washer d pricesByDay weatherByDay c o dayOffset prices
    ws rest hp hbw hz
  have hex := exists_mem_foldl _ _ dayOffset hpres hadd
    (List.range (daysToCheckOf washer).toNat) [] (List.mem_range.mpr hday)
  obtain ⟨x, hx, hQ1, hQ2, hQ3, hQ4, hQ5⟩ := hex
  have hne : (List.range (daysToCheckOf washer).toNat).foldl
      (coupledDayStep now washer (some d) pricesByDay weatherByDay c o) [] ≠ [] :=
    fun h0 => by rw [h0] at hx; exact List.not_mem_nil x hx
  exact ⟨_, generateCoupled_ok now washer (some d) pricesByDay weatherByDay hh c o hne,
    x, hx, hQ1, hQ2, hQ3, hQ4⟩

/-- C10 witness: the dryer window [30, 90) contains no slot start (the
only slot starts at 0), so the coupled slot is free and the total equals
the washer cost. -/
theorem c10_witness :
    estimateCost [oneSlot] oneRec.stop (oneRec.stop + aDryer.cycleMinutes) aDryer.estKWh = 0 ∧
    ∃ r, generateCoupledRecommendation 0 aWasher (some aDryer) pricesDay0 weatherDay0 hhEmpty
        cTrivial optsOne = .ok r ∧
      ∃ opt ∈ r.options, opt.usesNaturalDry = false ∧
        opt.coupledSlot = some ⟨oneRec.stop, oneRec.stop + aDryer.cycleMinutes, 0, "", 0⟩ ∧
        opt.totalCostGBP = oneRec.costGBP ∧ opt.primarySlot = oneRec :=
  c10_estimateCost_zero 0 aWasher aDryer pricesDay0 weatherDay0 hhEmpty cTrivial optsOne 0
    [oneSlot] oneRec [] (by with_unfolding_all decide) (by with_unfolding_all decide)
    (by with_unfolding_all decide) (by with_unfolding_all decide)

end SmartRun
